import Mathlib

/-!
Verification of the RapidEdit workflow controller (app.py).

The program is a single-file image-editing workflow: upload an image,
segment it (SAM), pick candidate masks, union them into one binary mask,
and inpaint the unioned region (SDXL).  The model-invoking collaborators
(SAM, the diffusers pipeline, streamlit widgets, the filesystem) are
opaque; what is embedded here is the original logic around them:

* the stage router (get_current_stage and the if/elif dispatch in main),
* the area filter of generate_dummy_masks,
* the mask compositor stitch_dummy_masks, including Python list-indexing
  semantics (negative indices wrap; out-of-range raises IndexError),
* the session-state record and the handlers that mutate it
  (Update and Proceed, Reuse Output Image, Restart Process),
* the state restoration performed on entering the mask_selection stage.

Numpy boolean H x W arrays are embedded as rectangular List (List Bool)
grids; an RGB image array as List (List RGB).  A Python statement
sequence that can raise is embedded as an Except value carrying the
session state as mutated up to the point of the raise.
-/

namespace RapidEdit

/-- Python runtime errors the embedded code can raise. -/
inductive PyErr where
  | indexError
  | nameError (x : String)
  | typeError (msg : String)
  deriving DecidableEq

/-- A boolean pixel grid, as a numpy 2-d bool array (row-major). -/
abbrev Grid := List (List Bool)

/-- One RGB pixel of the loaded image array. -/
abbrev RGB := Nat × Nat × Nat

/-- One SAM region proposal as app.py consumes it: the dict keys
"segmentation" (boolean pixel mask) and "area" (pixel count).  The other
keys of a SAM mask record are never read by the program. -/
structure CandidateMask where
  segmentation : Grid
  area : Nat
  deriving DecidableEq

instance : Inhabited CandidateMask := ⟨⟨[], 0⟩⟩

/-- A grid is a rectangular H x W array: H rows, each of width W. -/
abbrev Rect (g : List (List α)) (H W : Nat) : Prop :=
  g.length = H ∧ ∀ row ∈ g, row.length = W

/-- Pixel (r, c) of a boolean grid; false outside the grid. -/
def cell (g : Grid) (r c : Nat) : Bool := (g.getD r []).getD c false

/-- Pixel (r, c) of a saved 8-bit image; 0 outside the grid. -/
def cellN (g : List (List Nat)) (r c : Nat) : Nat := (g.getD r []).getD c 0

/-- Python list indexing l[i]: a negative index counts from the end of the
list ( l[-1] is the last element ), and an index outside -len(l)..len(l)-1
raises IndexError. -/
def pyGet [Inhabited α] (l : List α) (i : Int) : Except PyErr α :=
  if 0 ≤ i ∧ i < (l.length : Int) then .ok (l.getD i.toNat default)
  else if i < 0 ∧ 0 ≤ i + (l.length : Int) then
    .ok (l.getD (i + (l.length : Int)).toNat default)
  else .error .indexError

/-- The mask list generate_dummy_masks returns (app.py line 41): the raw
SAM proposals filtered by area, keeping only masks with area > 500 pixels,
in original discovery order.  The overlay rendering of lines 42-58
(random colors, centroid labels, saving mask_overlay.png) reads the
filtered list but does not change the returned list, and is omitted. -/
def generate_dummy_masks (sam_masks : List CandidateMask) : List CandidateMask :=
  sam_masks.filter (fun m => 500 < m.area)

/-- np.zeros_like(image_np[..., 0], dtype=np.uint8) (app.py line 70):
an all-false grid with the height and width of the image array. -/
def zerosLike (image_np : List (List RGB)) : Grid :=
  image_np.map (fun row => row.map (fun _ => false))

/-- np.logical_or of two same-shaped boolean grids (app.py line 72). -/
def orGrid (a b : Grid) : Grid := List.zipWith (List.zipWith (fun x y => x || y)) a b

/-- The for-loop of stitch_dummy_masks (app.py lines 71-72): fold the
selected 0-based indices over the accumulator with logical OR, indexing
filtered_masks with Python semantics; an IndexError propagates. -/
def stitchLoop (filtered_masks : List CandidateMask) (combined_mask : Grid) :
    List Int → Except PyErr Grid
  | [] => .ok combined_mask
  | idx :: rest =>
    match pyGet filtered_masks idx with
    | .error e => .error e
    | .ok m => stitchLoop filtered_masks (orGrid combined_mask m.segmentation) rest

/-- stitch_dummy_masks (app.py lines 62-77).  The image is loaded only to
shape the zero accumulator.  Each selected index string is parsed by
int(idx.strip()) - 1; the strings are embedded as the integers
int(idx.strip()) yields, so the subtraction of 1 happens here.  The
returned grid is the pixel content of the saved image
combined_mask * 255 (a 0/255 grid), or the Python error raised. -/
def stitch_dummy_masks (image_np : List (List RGB))
    (filtered_masks : List CandidateMask) (selected_indices : List Int) :
    Except PyErr (List (List Nat)) :=
  match stitchLoop filtered_masks (zerosLike image_np)
      (selected_indices.map (fun idx => idx - 1)) with
  | .error e => .error e
  | .ok combined_mask =>
    .ok (combined_mask.map (fun row => row.map (fun b => if b then 255 else 0)))

/-- get_current_stage (app.py lines 118-122):
st.query_params.get("stage", "upload").  Query parameters are embedded as
an association list of key/value pairs. -/
def get_current_stage (query_params : List (String × String)) : String :=
  ((query_params.lookup "stage").getD "upload")

/-- The four stage views the body of main can render. -/
inductive StageView where
  | upload
  | mask_selection
  | check
  | result
  deriving DecidableEq

/-- The stage dispatch of main (app.py lines 177, 207, 236, 261): an
if/elif chain over the stage string with no else branch, so a stage
string matching no branch renders no stage view (none). -/
def dispatchView (current_stage : String) : Option StageView :=
  if current_stage = "upload" then some .upload
  else if current_stage = "mask_selection" then some .mask_selection
  else if current_stage = "check" then some .check
  else if current_stage = "result" then some .result
  else none

/-- The st.session_state keys app.py ever writes.  Python session state is
a string-keyed dict; a key that is absent or set to None is embedded as
none (app.py never distinguishes the two: every read guards with None
checks or crashes on both). -/
structure SessionState where
  image_path : Option String
  prompt : Option String
  negative_prompt : Option String
  mask_overlay_path : Option String
  masks : Option (List CandidateMask)
  stitched_mask_path : Option String
  selected_masks : List String
  output_image_path : Option String
  result_path : Option String
  deriving DecidableEq

/-- Session-state initialization (app.py lines 144-151).  Lines 144-151
set image_path, prompt, mask_overlay_path, masks, stitched_mask_path,
output_image_path to None and selected_masks to []; the keys
negative_prompt and result_path are not initialized there (first written
at lines 200 and 256), hence absent, embedded as none. -/
def initSessionState : SessionState :=
  { image_path := none
    prompt := none
    negative_prompt := none
    mask_overlay_path := none
    masks := none
    stitched_mask_path := none
    selected_masks := []
    output_image_path := none
    result_path := none }

/-- Failures of the inpainting collaborator generate_result (model load
failure, out-of-memory, missing weights, decode failure). -/
inductive CollabErr where
  | failure (msg : String)
  deriving DecidableEq

/-- The "Update and Proceed" handler of the check stage (app.py lines
249-258).  The outcome of the generate_result call (an opaque collaborator
invocation) is passed in as gen: ok with the saved output path, or a
raised error.  The handler mutates session state in program order, so on a
raise the mutations already executed (prompt, negative_prompt at lines
251-252) persist; the returned pair is the session state as of the raise
point together with either the error or the newly persisted stage. -/
def updateAndProceed (gen : Except CollabErr String)
    (updated_prompt updated_negative_prompt : String) (s : SessionState) :
    SessionState × Except CollabErr String :=
  let s1 := { s with prompt := some updated_prompt
                     negative_prompt := some updated_negative_prompt }
  match gen with
  | .error e => (s1, .error e)
  | .ok result_path => ({ s1 with result_path := some result_path }, .ok "result")

/-- The "Restart Process" handler of the result stage (app.py lines
289-299): sets image_path, prompt, mask_overlay_path, masks and
stitched_mask_path to None, then persists stage "upload".  Returns the new
session state and the persisted stage string. -/
def restartProcess (s : SessionState) : SessionState × String :=
  ({ s with image_path := none
            prompt := none
            mask_overlay_path := none
            masks := none
            stitched_mask_path := none }, "upload")

/-- Python local-name resolution: reading a name bound in no enclosing
scope raises NameError. -/
def lookupVar (env : List (String × String)) (x : String) : Except PyErr String :=
  match env.lookup x with
  | some v => .ok v
  | none => .error (.nameError x)

/-- The string-valued local variables of main in scope inside the result
branch at app.py line 280: current_stage (line 141) and result_path
(line 273, os.path.join("uploads", "result.png")).  No binding of
output_image_path exists anywhere in main or at module scope (it is a
local of generate_result only). -/
def resultStageLocals (current_stage : String) : List (String × String) :=
  [("current_stage", current_stage), ("result_path", "uploads/result.png")]

/-- The "Reuse Output Image" handler of the result stage (app.py lines
280-286): reads the name output_image_path, sets it as the new
image_path, and persists stage "mask_selection" with the image parameter.
The read is embedded through resultStageLocals, where the name is
unbound. -/
def reuseOutputImage (s : SessionState) : Except PyErr (SessionState × String) :=
  match lookupVar (resultStageLocals "result") "output_image_path" with
  | .error e => .error e
  | .ok output_image_path =>
    .ok ({ s with image_path := some output_image_path }, "mask_selection")

/-- The state restoration main performs when the persisted stage is
mask_selection (app.py lines 157-166): if the image query parameter is
present and non-empty, set image_path to uploads/<filename> and, when no
overlay has been computed yet, store the freshly generated masks and
overlay path.  The generate_dummy_masks collaborator call outcome is
passed in as sam_result (masks, overlay path). -/
def restoreMaskSelection (query_params : List (String × String))
    (sam_result : List CandidateMask × String) (s : SessionState) : SessionState :=
  match query_params.lookup "image" with
  | none => s
  | some image_filename =>
    if image_filename = "" then s
    else
      let s1 := { s with image_path := some ("uploads/" ++ image_filename) }
      match s1.mask_overlay_path with
      | none => { s1 with masks := some sam_result.1
                          mask_overlay_path := some sam_result.2 }
      | some _ => s1

/-- The mask-selection view (app.py lines 207-217): it renders the overlay
and builds the multiselect options from range(len(st.session_state.masks)).
With masks still None (prerequisite state missing), len(None) raises
TypeError; otherwise the 0-based option label strings are produced. -/
def maskSelectionView (s : SessionState) : Except PyErr (List String) :=
  match s.masks with
  | none => .error (.typeError "object of type NoneType has no len")
  | some masks => .ok ((List.range masks.length).map (fun i => toString i))

/-- The segmentation grid of the 0-based mask number k, as Python in-bounds
indexing reads it. -/
def segAt (filtered_masks : List CandidateMask) (k : Nat) : Grid :=
  (filtered_masks.getD k default).segmentation

/-! ## Helper lemmas about the grid operations -/

lemma pyGet_ok [Inhabited α] (l : List α) (i : Int) (h0 : 0 ≤ i)
    (h1 : i < (l.length : Int)) :
    pyGet l i = .ok (l.getD i.toNat default) := by
  unfold pyGet
  rw [if_pos ⟨h0, h1⟩]

lemma cell_eq_getElem (g : Grid) (r c : Nat) (hr : r < g.length)
    (hc : c < (g.get ⟨r, hr⟩).length) :
    cell g r c = (g.get ⟨r, hr⟩).get ⟨c, hc⟩ := by
  unfold cell
  rw [List.getD_eq_getElem g [] hr]
  exact List.getD_eq_getElem _ _ hc

lemma grid_ext (H W : Nat) (g1 g2 : Grid) (h1 : Rect g1 H W) (h2 : Rect g2 H W)
    (h : ∀ r c, cell g1 r c = cell g2 r c) : g1 = g2 := by
  apply List.ext_getElem (by rw [h1.1, h2.1])
  intro r hr1 hr2
  apply List.ext_getElem
  · rw [h1.2 _ (List.getElem_mem hr1), h2.2 _ (List.getElem_mem hr2)]
  · intro c hc1 hc2
    have hcells := h r c
    rw [cell_eq_getElem g1 r c hr1 hc1, cell_eq_getElem g2 r c hr2 hc2] at hcells
    exact hcells

lemma rect_zerosLike (image_np : List (List RGB)) (H W : Nat)
    (h : Rect image_np H W) : Rect (zerosLike image_np) H W := by
  refine ⟨by simp [zerosLike, h.1], ?_⟩
  intro row hrow
  simp only [zerosLike, List.mem_map] at hrow
  obtain ⟨r0, hr0, rfl⟩ := hrow
  simp [h.2 r0 hr0]

lemma getD_map_const_false (row : List RGB) (c : Nat) :
    (row.map (fun _ => false)).getD c false = false := by
  induction row generalizing c with
  | nil => rfl
  | cons p tl ih =>
    cases c with
    | zero => rfl
    | succ c => exact ih c

lemma cell_zerosLike (image_np : List (List RGB)) (r c : Nat) :
    cell (zerosLike image_np) r c = false := by
  induction image_np generalizing r with
  | nil => rfl
  | cons row tl ih =>
    cases r with
    | zero => exact getD_map_const_false row c
    | succ r => exact ih r

lemma rect_orGrid (H W : Nat) (a b : Grid) (ha : Rect a H W) (hb : Rect b H W) :
    Rect (orGrid a b) H W := by
  constructor
  · simp [orGrid, List.length_zipWith, ha.1, hb.1]
  · intro row hrow
    simp only [orGrid] at hrow
    rw [List.mem_iff_getElem] at hrow
    obtain ⟨i, hi, rfl⟩ := hrow
    rw [List.getElem_zipWith]
    rw [List.length_zipWith]
    have hia : i < a.length := by rw [List.length_zipWith] at hi; omega
    have hib : i < b.length := by rw [List.length_zipWith] at hi; omega
    rw [ha.2 _ (List.getElem_mem hia), hb.2 _ (List.getElem_mem hib)]
    simp

lemma getD_zipWith_or (x y : List Bool) (hxy : x.length = y.length) (c : Nat) :
    (List.zipWith (fun u v => u || v) x y).getD c false
      = ((x.getD c false) || (y.getD c false)) := by
  induction x generalizing y c with
  | nil =>
    cases y with
    | nil => simp
    | cons b ys => simp at hxy
  | cons a xs ih =>
    cases y with
    | nil => simp at hxy
    | cons b ys =>
      cases c with
      | zero => rfl
      | succ c => exact ih ys (by simpa using hxy) c

lemma cell_orGrid (H W : Nat) (a b : Grid) (ha : Rect a H W) (hb : Rect b H W)
    (r c : Nat) : cell (orGrid a b) r c = (cell a r c || cell b r c) := by
  induction a generalizing b r H with
  | nil =>
    cases b with
    | nil => simp [orGrid, cell]
    | cons brow btl =>
      have h0 : (0 : Nat) = H := ha.1
      have := hb.1
      simp [← h0] at this
  | cons arow atl ih =>
    cases b with
    | nil =>
      have h0 : (0 : Nat) = H := hb.1
      have := ha.1
      simp [← h0] at this
    | cons brow btl =>
      cases r with
      | zero =>
        show (List.zipWith (fun u v => u || v) arow brow).getD c false
          = ((arow.getD c false) || (brow.getD c false))
        refine getD_zipWith_or arow brow ?_ c
        rw [ha.2 arow (List.mem_cons_self _ _), hb.2 brow (List.mem_cons_self _ _)]
      | succ r =>
        show cell (orGrid atl btl) r c = ((cell atl r c) || (cell btl r c))
        have hH : H = atl.length + 1 := by
          have := ha.1
          simpa using this.symm
        refine ih atl.length btl ?_ ?_ r
        · exact ⟨rfl, fun row hrow => ha.2 row (List.mem_cons_of_mem _ hrow)⟩
        · refine ⟨?_, fun row hrow => hb.2 row (List.mem_cons_of_mem _ hrow)⟩
          have hbl := hb.1
          simp only [List.length_cons] at hbl
          omega

lemma getD_map255_row (row : List Bool) (c : Nat) :
    ((row.map (fun b => if b then (255 : Nat) else 0)).getD c 0)
      = (if row.getD c false then 255 else 0) := by
  induction row generalizing c with
  | nil => rfl
  | cons b tl ih =>
    cases c with
    | zero => rfl
    | succ c => exact ih c

lemma cellN_map255 (g : Grid) (r c : Nat) :
    cellN (g.map (fun row => row.map (fun b => if b then 255 else 0))) r c
      = (if cell g r c then 255 else 0) := by
  induction g generalizing r with
  | nil => rfl
  | cons row tl ih =>
    cases r with
    | zero => exact getD_map255_row row c
    | succ r => exact ih r

lemma rect_map255 (H W : Nat) (g : Grid) (h : Rect g H W) :
    Rect (g.map (fun row => row.map (fun b => if b then (255 : Nat) else 0))) H W := by
  refine ⟨by simp [h.1], ?_⟩
  intro row hrow
  simp only [List.mem_map] at hrow
  obtain ⟨r0, hr0, rfl⟩ := hrow
  simp [h.2 r0 hr0]

lemma stitchLoop_ok (filtered_masks : List CandidateMask) (sel0 : List Int)
    (init : Grid) (hv : ∀ j ∈ sel0, 0 ≤ j ∧ j < (filtered_masks.length : Int)) :
    stitchLoop filtered_masks init sel0
      = .ok (sel0.foldl (fun acc j => orGrid acc (segAt filtered_masks j.toNat)) init) := by
  induction sel0 generalizing init with
  | nil => rfl
  | cons j rest ih =>
    have hj := hv j (List.mem_cons_self j rest)
    have hget : pyGet filtered_masks j = .ok (filtered_masks.getD j.toNat default) :=
      pyGet_ok filtered_masks j hj.1 hj.2
    simp only [stitchLoop, hget, List.foldl_cons]
    exact ih _ (fun x hx => hv x (List.mem_cons_of_mem _ hx))

lemma segAt_rect (H W : Nat) (filtered_masks : List CandidateMask)
    (hmasks : ∀ m ∈ filtered_masks, Rect m.segmentation H W)
    (k : Nat) (hk : k < filtered_masks.length) :
    Rect (segAt filtered_masks k) H W := by
  unfold segAt
  rw [List.getD_eq_getElem _ _ hk]
  exact hmasks _ (List.getElem_mem hk)

lemma foldl_orGrid_spec (H W : Nat) (filtered_masks : List CandidateMask)
    (hmasks : ∀ m ∈ filtered_masks, Rect m.segmentation H W)
    (sel0 : List Int) (init : Grid)
    (hv : ∀ j ∈ sel0, 0 ≤ j ∧ j < (filtered_masks.length : Int))
    (hinit : Rect init H W) :
    Rect (sel0.foldl (fun acc j => orGrid acc (segAt filtered_masks j.toNat)) init) H W ∧
    ∀ r c, cell (sel0.foldl (fun acc j => orGrid acc (segAt filtered_masks j.toNat)) init) r c
      = (cell init r c || sel0.any (fun j => cell (segAt filtered_masks j.toNat) r c)) := by
  induction sel0 generalizing init with
  | nil => exact ⟨hinit, fun r c => by simp⟩
  | cons j rest ih =>
    have hj := hv j (List.mem_cons_self j rest)
    have hseg : Rect (segAt filtered_masks j.toNat) H W :=
      segAt_rect H W filtered_masks hmasks j.toNat (by omega)
    have hstep : Rect (orGrid init (segAt filtered_masks j.toNat)) H W :=
      rect_orGrid H W _ _ hinit hseg
    obtain ⟨hrect, hcell⟩ :=
      ih (orGrid init (segAt filtered_masks j.toNat))
        (fun x hx => hv x (List.mem_cons_of_mem _ hx)) hstep
    refine ⟨by simpa using hrect, fun r c => ?_⟩
    rw [List.foldl_cons, hcell r c, cell_orGrid H W _ _ hinit hseg, List.any_cons,
        Bool.or_assoc]

lemma stitch_ok (image_np : List (List RGB)) (filtered_masks : List CandidateMask)
    (selected_indices : List Int)
    (hvalid : ∀ i ∈ selected_indices, 1 ≤ i ∧ i ≤ (filtered_masks.length : Int)) :
    stitch_dummy_masks image_np filtered_masks selected_indices
      = .ok (((selected_indices.map (fun idx => idx - 1)).foldl
          (fun acc j => orGrid acc (segAt filtered_masks j.toNat))
          (zerosLike image_np)).map
          (fun row => row.map (fun b => if b then 255 else 0))) := by
  unfold stitch_dummy_masks
  rw [stitchLoop_ok]
  intro j hj
  simp only [List.mem_map] at hj
  obtain ⟨i, hi, rfl⟩ := hj
  have := hvalid i hi
  omega

lemma mapped_sel_bounds (filtered_masks : List CandidateMask)
    (selected_indices : List Int)
    (hvalid : ∀ i ∈ selected_indices, 1 ≤ i ∧ i ≤ (filtered_masks.length : Int)) :
    ∀ j ∈ selected_indices.map (fun idx => idx - 1),
      0 ≤ j ∧ j < (filtered_masks.length : Int) := by
  intro j hj
  simp only [List.mem_map] at hj
  obtain ⟨i, hi, rfl⟩ := hj
  have := hvalid i hi
  omega

/-- The stitched grid depends on the selection only through index membership:
two valid selections containing the same indices stitch to the same mask. -/
lemma stitch_membership_invariant (H W : Nat) (image_np : List (List RGB))
    (filtered_masks : List CandidateMask) (sel1 sel2 : List Int)
    (himg : Rect image_np H W)
    (hmasks : ∀ m ∈ filtered_masks, Rect m.segmentation H W)
    (hvalid1 : ∀ i ∈ sel1, 1 ≤ i ∧ i ≤ (filtered_masks.length : Int))
    (hvalid2 : ∀ i ∈ sel2, 1 ≤ i ∧ i ≤ (filtered_masks.length : Int))
    (hmem : ∀ i, i ∈ sel1 ↔ i ∈ sel2) :
    stitch_dummy_masks image_np filtered_masks sel1
      = stitch_dummy_masks image_np filtered_masks sel2 := by
  rw [stitch_ok image_np filtered_masks sel1 hvalid1,
      stitch_ok image_np filtered_masks sel2 hvalid2]
  have hz : Rect (zerosLike image_np) H W := rect_zerosLike image_np H W himg
  obtain ⟨hr1, hc1⟩ := foldl_orGrid_spec H W filtered_masks hmasks _ _
    (mapped_sel_bounds filtered_masks sel1 hvalid1) hz
  obtain ⟨hr2, hc2⟩ := foldl_orGrid_spec H W filtered_masks hmasks _ _
    (mapped_sel_bounds filtered_masks sel2 hvalid2) hz
  have hfold : (sel1.map (fun idx => idx - 1)).foldl
        (fun acc j => orGrid acc (segAt filtered_masks j.toNat)) (zerosLike image_np)
      = (sel2.map (fun idx => idx - 1)).foldl
        (fun acc j => orGrid acc (segAt filtered_masks j.toNat)) (zerosLike image_np) := by
    apply grid_ext H W _ _ hr1 hr2
    intro r c
    rw [hc1 r c, hc2 r c, cell_zerosLike]
    have : ((sel1.map (fun idx => idx - 1)).any
          (fun j => cell (segAt filtered_masks j.toNat) r c))
        = ((sel2.map (fun idx => idx - 1)).any
          (fun j => cell (segAt filtered_masks j.toNat) r c)) := by
      rw [Bool.eq_iff_iff, List.any_eq_true, List.any_eq_true]
      constructor
      · rintro ⟨j, hjmem, hjcell⟩
        simp only [List.mem_map] at hjmem
        obtain ⟨i, hi, rfl⟩ := hjmem
        exact ⟨i - 1, List.mem_map.mpr ⟨i, (hmem i).mp hi, rfl⟩, hjcell⟩
      · rintro ⟨j, hjmem, hjcell⟩
        simp only [List.mem_map] at hjmem
        obtain ⟨i, hi, rfl⟩ := hjmem
        exact ⟨i - 1, List.mem_map.mpr ⟨i, (hmem i).mpr hi, rfl⟩, hjcell⟩
    rw [this]
  rw [hfold]

/-! ## Claim theorems -/

/-- C1: app.py does not reject the out-of-range selection index 0.  With one
candidate mask (valid indices 1..1, segmentation [[true]] over a 1x1 image),
selecting "0" is converted to the Python index -1, which wraps around to the
last candidate mask, so stitch_dummy_masks silently returns that mask's
pixels as the stitched result instead of raising; only an index above N
raises IndexError.  This refutes the claim that every out-of-range index
fails with an out-of-range error. -/
theorem stitch_index_zero_selects_last_mask :
    stitch_dummy_masks [[((0 : Nat), (0 : Nat), (0 : Nat))]]
        [CandidateMask.mk [[true]] 600] [0] = Except.ok [[255]] ∧
    stitch_dummy_masks [[((0 : Nat), (0 : Nat), (0 : Nat))]]
        [CandidateMask.mk [[true]] 600] [2] = Except.error PyErr.indexError := by
  constructor <;> rfl

/-- C2 counterexample: the persisted stage value "settings" is not one of the
four recognized identifiers; get_current_stage returns it unchanged and the
dispatch in main matches no branch, so no stage view is rendered — the router
does not resolve an unrecognized value to Upload. -/
theorem unrecognized_stage_renders_no_view :
    get_current_stage [("stage", "settings")] = "settings" ∧
    dispatchView (get_current_stage [("stage", "settings")]) = none := by
  constructor <;> rfl

/-- C2 amended: a missing stage value resolves to Upload and renders the
Upload view; a present stage value is returned unchanged and dispatches to
the matching view when it is one of the four recognized identifiers, and to
no stage view at all (rather than Upload) otherwise. -/
theorem stage_router_amended (query_params : List (String × String)) :
    (query_params.lookup "stage" = none →
      get_current_stage query_params = "upload" ∧
      dispatchView (get_current_stage query_params) = some StageView.upload) ∧
    (∀ v, query_params.lookup "stage" = some v →
      get_current_stage query_params = v ∧
      dispatchView v =
        (if v = "upload" then some StageView.upload
         else if v = "mask_selection" then some StageView.mask_selection
         else if v = "check" then some StageView.check
         else if v = "result" then some StageView.result
         else none)) := by
  constructor
  · intro h
    constructor
    · simp [get_current_stage, h]
    · simp [get_current_stage, h, dispatchView]
  · intro v h
    constructor
    · simp [get_current_stage, h]
    · rfl

/-- C3 counterexample: when the generate_result call fails during the
Check stage, the session state is not left at its pre-call values — the
prompt and negative-prompt fields have already been overwritten with the
edited values (app.py lines 251-252 run before the line 255 call). -/
theorem inpaint_failure_overwrites_prompt :
    updateAndProceed (Except.error (CollabErr.failure "CUDA out of memory"))
        "new prompt" "new negative"
        { initSessionState with prompt := some "old prompt",
                                negative_prompt := some "old negative" }
      = ({ initSessionState with prompt := some "new prompt",
                                 negative_prompt := some "new negative" },
         Except.error (CollabErr.failure "CUDA out of memory")) := by
  rfl

/-- C3 amended: if the generate_result call fails during the Check to Result
transition, the failure propagates as a fatal error for that stage (the stage
is not advanced and result_path is not written) and every SessionState field
except prompt and negative_prompt is left at its pre-call value; prompt and
negative_prompt are overwritten with the edited values before the call. -/
theorem check_failure_amended (e : CollabErr)
    (updated_prompt updated_negative_prompt : String) (s : SessionState) :
    updateAndProceed (Except.error e) updated_prompt updated_negative_prompt s
      = ({ s with prompt := some updated_prompt,
                  negative_prompt := some updated_negative_prompt },
         Except.error e) := by
  rfl

/-- C4: reaching mask_selection with the image query parameter absent leaves
the prerequisite session state untouched (no fallback to Upload is taken:
the dispatch still selects the mask_selection view), and rendering that view
against the uninitialized state then raises TypeError on len(None) instead
of recovering to the Upload stage. -/
theorem mask_selection_missing_image_crashes :
    get_current_stage [("stage", "mask_selection")] = "mask_selection" ∧
    dispatchView (get_current_stage [("stage", "mask_selection")])
      = some StageView.mask_selection ∧
    restoreMaskSelection [("stage", "mask_selection")]
        ([], "uploads/mask_overlay.png") initSessionState = initSessionState ∧
    maskSelectionView initSessionState
      = Except.error (PyErr.typeError "object of type NoneType has no len") := by
  refine ⟨rfl, rfl, rfl, rfl⟩

/-- C5 counterexample: "Restart Process" does not reset every SessionState
field — negative_prompt, selected_masks, output_image_path and result_path
keep their old values (app.py lines 291-295 reset only five fields), so a
state carrying those fields is returned unchanged by the restart reset. -/
theorem restart_retains_some_fields :
    (restartProcess { initSessionState with
        negative_prompt := some "blurry",
        selected_masks := ["1", "3"],
        output_image_path := some "uploads/result.png",
        result_path := some "uploads/result.png" }).1
      = { initSessionState with
          negative_prompt := some "blurry",
          selected_masks := ["1", "3"],
          output_image_path := some "uploads/result.png",
          result_path := some "uploads/result.png" } := by
  rfl

/-- C5 amended: "Restart Process" resets image_path, prompt,
mask_overlay_path, masks and stitched_mask_path to their initial empty
values and returns the stage to Upload, but leaves negative_prompt,
selected_masks, output_image_path and result_path unchanged. -/
theorem restart_amended (s : SessionState) :
    restartProcess s
      = ({ s with image_path := none, prompt := none, mask_overlay_path := none,
                  masks := none, stitched_mask_path := none }, "upload") := by
  rfl

/-- C6: "Reuse Output Image" reads the name output_image_path, which is
bound nowhere in main (the only binding is a local of generate_result), so
the click raises NameError before any state change or stage transition —
the session never reaches MaskSelection with the prior output as input. -/
theorem reuse_output_image_name_error (s : SessionState) :
    reuseOutputImage s = Except.error (PyErr.nameError "output_image_path") := by
  rfl

/-- C9: the area filter of generate_dummy_masks retains exactly the raw
proposals whose reported area exceeds 500 (all with area at most 500 are
removed), keeps them in original discovery order (the result is a sublist of
the input), and the returned count equals the retained count. -/
theorem area_filter_correct (sam_masks : List CandidateMask) :
    (∀ m ∈ generate_dummy_masks sam_masks, 500 < m.area) ∧
    (∀ m ∈ sam_masks, 500 < m.area → m ∈ generate_dummy_masks sam_masks) ∧
    (∀ m ∈ sam_masks, m.area ≤ 500 → m ∉ generate_dummy_masks sam_masks) ∧
    (generate_dummy_masks sam_masks).Sublist sam_masks ∧
    (generate_dummy_masks sam_masks).length
      = sam_masks.countP (fun m => 500 < m.area) := by
  refine ⟨?_, ?_, ?_, List.filter_sublist _, (List.countP_eq_length_filter _ _).symm⟩
  · intro m hm
    have := (List.mem_filter.mp hm).2
    simpa using this
  · intro m hm harea
    exact List.mem_filter.mpr ⟨hm, by simpa using harea⟩
  · intro m _ harea hmem
    have := (List.mem_filter.mp hmem).2
    simp at this
    omega

/-- C7: for a rectangular H x W image, candidate masks of the same shape and
a valid (possibly empty) selection of 1-based indices, stitch_dummy_masks
succeeds and yields an H x W image whose every pixel is 0 or 255, a pixel
being 255 exactly when some selected candidate mask is true there (the
pixel-wise OR of the selected masks); the empty selection yields the
all-zero mask. -/
theorem stitch_valid_selection_binary_or (H W : Nat) (image_np : List (List RGB))
    (filtered_masks : List CandidateMask) (selected_indices : List Int)
    (himg : Rect image_np H W)
    (hmasks : ∀ m ∈ filtered_masks, Rect m.segmentation H W)
    (hvalid : ∀ i ∈ selected_indices, 1 ≤ i ∧ i ≤ (filtered_masks.length : Int)) :
    ∃ out, stitch_dummy_masks image_np filtered_masks selected_indices = Except.ok out ∧
      Rect out H W ∧
      (∀ row ∈ out, ∀ p ∈ row, p = 0 ∨ p = 255) ∧
      (∀ r c, r < H → c < W →
        (cellN out r c = 255 ↔
          ∃ i ∈ selected_indices, cell (segAt filtered_masks (i - 1).toNat) r c = true)) ∧
      (selected_indices = [] → ∀ r c, cellN out r c = 0) := by
  have hz : Rect (zerosLike image_np) H W := rect_zerosLike image_np H W himg
  obtain ⟨hrect, hcell⟩ := foldl_orGrid_spec H W filtered_masks hmasks
    (selected_indices.map (fun idx => idx - 1)) (zerosLike image_np)
    (mapped_sel_bounds filtered_masks selected_indices hvalid) hz
  refine ⟨_, stitch_ok image_np filtered_masks selected_indices hvalid,
    rect_map255 H W _ hrect, ?_, ?_, ?_⟩
  · intro row hrow p hp
    simp only [List.mem_map] at hrow
    obtain ⟨row0, _, rfl⟩ := hrow
    simp only [List.mem_map] at hp
    obtain ⟨b, _, rfl⟩ := hp
    cases b <;> simp
  · intro r c _ _
    rw [cellN_map255, hcell r c, cell_zerosLike, Bool.false_or]
    constructor
    · intro h255
      by_cases hb : (selected_indices.map (fun idx => idx - 1)).any
          (fun j => cell (segAt filtered_masks j.toNat) r c) = true
      · rw [List.any_eq_true] at hb
        obtain ⟨j, hjmem, hcellj⟩ := hb
        simp only [List.mem_map] at hjmem
        obtain ⟨i, hi, rfl⟩ := hjmem
        exact ⟨i, hi, hcellj⟩
      · rw [Bool.not_eq_true] at hb
        rw [hb] at h255
        simp at h255
    · rintro ⟨i, hi, hcelli⟩
      have hb : (selected_indices.map (fun idx => idx - 1)).any
          (fun j => cell (segAt filtered_masks j.toNat) r c) = true :=
        List.any_eq_true.mpr ⟨i - 1, List.mem_map.mpr ⟨i, hi, rfl⟩, hcelli⟩
      rw [hb]
      rfl
  · intro hempty r c
    subst hempty
    simp only [List.map_nil, List.foldl_nil]
    rw [cellN_map255, cell_zerosLike]
    rfl

/-- C7 witness: a 1x2 image, one candidate mask [[true, false]] of area 600,
selection ["1"]. -/
theorem stitch_valid_selection_binary_or_witness :
    Rect [[((1 : Nat), (2 : Nat), (3 : Nat)), ((4 : Nat), (5 : Nat), (6 : Nat))]] 1 2 ∧
    (∀ m ∈ [CandidateMask.mk [[true, false]] 600], Rect m.segmentation 1 2) ∧
    (∀ i ∈ ([1] : List Int), 1 ≤ i ∧
      i ≤ (([CandidateMask.mk [[true, false]] 600] : List CandidateMask).length : Int)) ∧
    (∃ out, stitch_dummy_masks
        [[((1 : Nat), (2 : Nat), (3 : Nat)), ((4 : Nat), (5 : Nat), (6 : Nat))]]
        [CandidateMask.mk [[true, false]] 600] [1] = Except.ok out ∧
      Rect out 1 2 ∧
      (∀ row ∈ out, ∀ p ∈ row, p = 0 ∨ p = 255) ∧
      (∀ r c, r < 1 → c < 2 →
        (cellN out r c = 255 ↔
          ∃ i ∈ ([1] : List Int),
            cell (segAt [CandidateMask.mk [[true, false]] 600] (i - 1).toNat) r c = true)) ∧
      (([1] : List Int) = [] → ∀ r c, cellN out r c = 0)) :=
  ⟨by decide, by decide, by decide,
    stitch_valid_selection_binary_or 1 2
      [[((1 : Nat), (2 : Nat), (3 : Nat)), ((4 : Nat), (5 : Nat), (6 : Nat))]]
      [CandidateMask.mk [[true, false]] 600] [1]
      (by decide) (by decide) (by decide)⟩

/-- C8: for a valid selection, stitching is order-independent — any
permutation of the selection produces the identical stitched mask — and the
union of all candidate masks (selection 1..N) is the pixel-wise OR of every
mask in the sequence. -/
theorem stitch_order_independent (H W : Nat) (image_np : List (List RGB))
    (filtered_masks : List CandidateMask) (sel1 sel2 : List Int)
    (himg : Rect image_np H W)
    (hmasks : ∀ m ∈ filtered_masks, Rect m.segmentation H W)
    (hvalid : ∀ i ∈ sel1, 1 ≤ i ∧ i ≤ (filtered_masks.length : Int))
    (hperm : sel1.Perm sel2) :
    stitch_dummy_masks image_np filtered_masks sel1
      = stitch_dummy_masks image_np filtered_masks sel2 ∧
    ∀ out, stitch_dummy_masks image_np filtered_masks
        ((List.range filtered_masks.length).map (fun (k : Nat) => (k : Int) + 1))
        = Except.ok out →
      ∀ r c, cellN out r c
        = (if filtered_masks.any (fun m => cell m.segmentation r c) then 255 else 0) := by
  constructor
  · exact stitch_membership_invariant H W image_np filtered_masks sel1 sel2 himg hmasks
      hvalid (fun i hi => hvalid i (hperm.mem_iff.mpr hi)) (fun i => hperm.mem_iff)
  · intro out hout r c
    have hvall : ∀ i ∈ (List.range filtered_masks.length).map
        (fun (k : Nat) => (k : Int) + 1),
        1 ≤ i ∧ i ≤ (filtered_masks.length : Int) := by
      intro i hi
      obtain ⟨k, hkmem, rfl⟩ := List.mem_map.mp hi
      have hk : k < filtered_masks.length := List.mem_range.mp hkmem
      omega
    rw [stitch_ok image_np filtered_masks _ hvall] at hout
    injection hout with hout
    subst hout
    have hlist : ((List.range filtered_masks.length).map
          (fun (k : Nat) => (k : Int) + 1)).map (fun idx => idx - 1)
        = (List.range filtered_masks.length).map (fun (k : Nat) => (k : Int)) := by
      rw [List.map_map]
      refine List.map_congr_left ?_
      intro k _
      simp
    rw [hlist]
    have hv2 : ∀ j ∈ (List.range filtered_masks.length).map (fun (k : Nat) => (k : Int)),
        0 ≤ j ∧ j < (filtered_masks.length : Int) := by
      intro j hj
      obtain ⟨k, hkmem, rfl⟩ := List.mem_map.mp hj
      have hk : k < filtered_masks.length := List.mem_range.mp hkmem
      omega
    obtain ⟨hrect, hcell⟩ := foldl_orGrid_spec H W filtered_masks hmasks
      ((List.range filtered_masks.length).map (fun (k : Nat) => (k : Int)))
      (zerosLike image_np) hv2 (rect_zerosLike image_np H W himg)
    rw [cellN_map255, hcell r c, cell_zerosLike, Bool.false_or]
    have hAB : ((List.range filtered_masks.length).map (fun (k : Nat) => (k : Int))).any
          (fun j => cell (segAt filtered_masks j.toNat) r c)
        = filtered_masks.any (fun m => cell m.segmentation r c) := by
      rw [Bool.eq_iff_iff, List.any_eq_true, List.any_eq_true]
      constructor
      · rintro ⟨j, hjmem, hjcell⟩
        obtain ⟨k, hkmem, rfl⟩ := List.mem_map.mp hjmem
        have hk : k < filtered_masks.length := List.mem_range.mp hkmem
        refine ⟨filtered_masks[k], List.getElem_mem hk, ?_⟩
        have hkk : ((k : Int)).toNat = k := by omega
        rw [hkk] at hjcell
        simp only [segAt] at hjcell
        rw [List.getD_eq_getElem _ _ hk] at hjcell
        exact hjcell
      · rintro ⟨m, hm, hmcell⟩
        rw [List.mem_iff_getElem] at hm
        obtain ⟨k, hk, rfl⟩ := hm
        refine ⟨(k : Int), List.mem_map.mpr ⟨k, List.mem_range.mpr hk, rfl⟩, ?_⟩
        have hkk : ((k : Int)).toNat = k := by omega
        simp only [segAt]
        rw [hkk, List.getD_eq_getElem _ _ hk]
        exact hmcell
    rw [hAB]

/-- C8 witness: a 1x2 image, two candidate masks, selections [1, 2] and
[2, 1] (a permutation of each other). -/
theorem stitch_order_independent_witness :
    Rect [[((0 : Nat), (0 : Nat), (0 : Nat)), ((0 : Nat), (0 : Nat), (0 : Nat))]] 1 2 ∧
    (∀ m ∈ [CandidateMask.mk [[true, false]] 600, CandidateMask.mk [[false, true]] 700],
      Rect m.segmentation 1 2) ∧
    (∀ i ∈ ([1, 2] : List Int), 1 ≤ i ∧
      i ≤ (([CandidateMask.mk [[true, false]] 600, CandidateMask.mk [[false, true]] 700] :
        List CandidateMask).length : Int)) ∧
    ([1, 2] : List Int).Perm [2, 1] ∧
    (stitch_dummy_masks [[((0 : Nat), (0 : Nat), (0 : Nat)), ((0 : Nat), (0 : Nat), (0 : Nat))]]
        [CandidateMask.mk [[true, false]] 600, CandidateMask.mk [[false, true]] 700] [1, 2]
      = stitch_dummy_masks [[((0 : Nat), (0 : Nat), (0 : Nat)), ((0 : Nat), (0 : Nat), (0 : Nat))]]
        [CandidateMask.mk [[true, false]] 600, CandidateMask.mk [[false, true]] 700] [2, 1] ∧
     ∀ out, stitch_dummy_masks
        [[((0 : Nat), (0 : Nat), (0 : Nat)), ((0 : Nat), (0 : Nat), (0 : Nat))]]
        [CandidateMask.mk [[true, false]] 600, CandidateMask.mk [[false, true]] 700]
        ((List.range ([CandidateMask.mk [[true, false]] 600,
            CandidateMask.mk [[false, true]] 700] : List CandidateMask).length).map
          (fun (k : Nat) => (k : Int) + 1))
        = Except.ok out →
      ∀ r c, cellN out r c
        = (if ([CandidateMask.mk [[true, false]] 600,
              CandidateMask.mk [[false, true]] 700] : List CandidateMask).any
              (fun m => cell m.segmentation r c) then 255 else 0)) :=
  ⟨by decide, by decide, by decide, by decide,
    stitch_order_independent 1 2
      [[((0 : Nat), (0 : Nat), (0 : Nat)), ((0 : Nat), (0 : Nat), (0 : Nat))]]
      [CandidateMask.mk [[true, false]] 600, CandidateMask.mk [[false, true]] 700]
      [1, 2] [2, 1] (by decide) (by decide) (by decide) (by decide)⟩

/-- C10: for a valid selection, stitching is idempotent in the selected
indices — a selection listing indices more than once stitches to exactly the
mask of its deduplicated selection, so duplicates never change the output. -/
theorem stitch_duplicate_indices_idempotent (H W : Nat) (image_np : List (List RGB))
    (filtered_masks : List CandidateMask) (sel : List Int)
    (himg : Rect image_np H W)
    (hmasks : ∀ m ∈ filtered_masks, Rect m.segmentation H W)
    (hvalid : ∀ i ∈ sel, 1 ≤ i ∧ i ≤ (filtered_masks.length : Int)) :
    stitch_dummy_masks image_np filtered_masks sel
      = stitch_dummy_masks image_np filtered_masks sel.dedup :=
  stitch_membership_invariant H W image_np filtered_masks sel sel.dedup himg hmasks
    hvalid (fun i hi => hvalid i (List.mem_dedup.mp hi))
    (fun i => (List.mem_dedup (a := i)).symm)

/-- C10 witness: a 1x1 image, one candidate mask, selection [1, 1] whose
deduplication is [1]. -/
theorem stitch_duplicate_indices_idempotent_witness :
    Rect [[((0 : Nat), (0 : Nat), (0 : Nat))]] 1 1 ∧
    (∀ m ∈ [CandidateMask.mk [[true]] 600], Rect m.segmentation 1 1) ∧
    (∀ i ∈ ([1, 1] : List Int), 1 ≤ i ∧
      i ≤ (([CandidateMask.mk [[true]] 600] : List CandidateMask).length : Int)) ∧
    stitch_dummy_masks [[((0 : Nat), (0 : Nat), (0 : Nat))]]
        [CandidateMask.mk [[true]] 600] [1, 1]
      = stitch_dummy_masks [[((0 : Nat), (0 : Nat), (0 : Nat))]]
        [CandidateMask.mk [[true]] 600] ([1, 1] : List Int).dedup :=
  ⟨by decide, by decide, by decide,
    stitch_duplicate_indices_idempotent 1 1 [[((0 : Nat), (0 : Nat), (0 : Nat))]]
      [CandidateMask.mk [[true]] 600] [1, 1] (by decide) (by decide) (by decide)⟩

end RapidEdit
